import Mathlib

/-!
Verification of the stagehand MCP server (request dispatch, session
lifecycle, tool handlers and static artifact server) against its
natural-language specification.  The TypeScript sources are shallowly
embedded: string-processing code is translated to executable functions
over `List Char`, stateful code is explicit state passing, and the
external browser-automation library is an oracle parameter.
-/

namespace StagehandMcp

/-! ## String primitives (kernel-friendly, over `List Char`) -/

/-- Left and right curly brace characters (kept out of string literals). -/
def braceL : Char := Char.ofNat 123

/-- Right curly brace character. -/
def braceR : Char := Char.ofNat 125

/-- Boolean prefix test on char lists. -/
def listHasPrefix : List Char → List Char → Bool
  | _, [] => true
  | [], _ :: _ => false
  | a :: as, b :: bs => a == b && listHasPrefix as bs

/-- Boolean substring test on char lists (models JS `String.includes`). -/
def listContainsSub : List Char → List Char → Bool
  | [], pat => pat.isEmpty
  | a :: t, pat => listHasPrefix (a :: t) pat || listContainsSub t pat

/-- Models JS `s.startsWith(p)`. -/
def strStartsWith (s p : String) : Bool := listHasPrefix s.data p.data

/-- Models JS `s.endsWith(p)`. -/
def strEndsWith (s p : String) : Bool := listHasPrefix s.data.reverse p.data.reverse

/-- Models JS `s.includes(pat)`. -/
def containsStr (s pat : String) : Bool := listContainsSub s.data pat.data

/-- Split helper accumulating the current (reversed) chunk. -/
def splitCharAux (c : Char) : List Char → List Char → List (List Char)
  | [], cur => [cur.reverse]
  | a :: t, cur =>
    if a == c then cur.reverse :: splitCharAux c t [] else splitCharAux c t (a :: cur)

/-- Models JS `s.split(c)` for a single-character separator. -/
def splitOnChar (c : Char) (s : String) : List String :=
  (splitCharAux c s.data []).map String.mk

/-- Models JS `parts.join(sep)`. -/
def joinWith (sep : String) : List String → String
  | [] => ""
  | [a] => a
  | a :: b :: t => a ++ sep ++ joinWith sep (b :: t)

/-- Helper for `jsReplaceFirst`: removes the first occurrence of `pat`. -/
def jsReplaceFirstAux (pat : List Char) : List Char → List Char
  | [] => []
  | a :: t =>
    if listHasPrefix (a :: t) pat then (a :: t).drop pat.length
    else a :: jsReplaceFirstAux pat t

/-- Models JS `s.replace(pat, "")` for a plain-string pattern: only the
first occurrence is removed. -/
def jsReplaceFirst (s pat : String) : String :=
  if pat = "" then s else String.mk (jsReplaceFirstAux pat.data s.data)

/-- Whitespace class used by JS `\s`, `trim` (common members). -/
def isJsSpace (c : Char) : Bool :=
  c == ' ' || c == '\t' || c == '\n' || c == '\r' ||
  c == Char.ofNat 11 || c == Char.ofNat 12 || c == Char.ofNat 160

/-- Models JS `s.trim()`. -/
def jsTrim (s : String) : String :=
  String.mk (((s.data.dropWhile isJsSpace).reverse.dropWhile isJsSpace).reverse)

/-- Models JS `s.toLowerCase()` (ASCII range, which is all the code compares). -/
def strToLower (s : String) : String := String.mk (s.data.map Char.toLower)

/-- Hexadecimal digit test for the `\uXXXX` unescape regex class `[0-9a-fA-F]`. -/
def isHexDigit (c : Char) : Bool :=
  c.isDigit || ('a' ≤ c && c ≤ 'f') || ('A' ≤ c && c ≤ 'F')

/-- Numeric value of a hexadecimal digit. -/
def hexVal (c : Char) : Nat :=
  if 'a' ≤ c then c.toNat - 87 else if 'A' ≤ c then c.toNat - 55 else c.toNat - 48

/-! ## Result envelope (tools.ts `CallToolResult`) -/

/-- One content item of a tool-call result: a text fragment or an inline
base64 image. -/
inductive ContentItem
  | text (s : String)
  | image (data : String) (mimeType : String)
deriving DecidableEq, Repr

/-- The uniform result envelope every tool handler returns. -/
structure CallToolResult where
  content : List ContentItem
  isError : Bool
deriving DecidableEq, Repr

/-! ## Static artifact server (httpStaticServer.ts) -/

/-- Folds path segments the way Node `path.join`/`path.posix.normalize`
does for an absolute base: empty and `.` segments vanish, `..` pops. -/
def normSegs (segs : List String) : List String :=
  segs.foldl
    (fun acc s =>
      if s == "" || s == "." then acc
      else if s == ".." then acc.dropLast
      else acc ++ [s])
    []

/-- Models Node `path.join(base, rel)` for an absolute, already normalized
`base` with no trailing slash (which is what `path.resolve(__dirname, "../tmp")`
produces): concatenate and normalize, keeping a trailing slash of `rel`. -/
def pathJoin (base rel : String) : String :=
  let segs := normSegs (splitOnChar '/' base ++ splitOnChar '/' rel)
  let core := "/" ++ joinWith "/" segs
  if rel ≠ "" && strEndsWith rel "/" && !segs.isEmpty then core ++ "/" else core

/-- Uppercase hexadecimal digit for percent-encoding. -/
def hexDigitChar (n : Nat) : Char :=
  if n < 10 then Char.ofNat (48 + n) else Char.ofNat (55 + n)

/-- UTF-8 bytes of a code point (what `encodeURIComponent` percent-encodes). -/
def utf8Bytes (n : Nat) : List Nat :=
  if n < 128 then [n]
  else if n < 2048 then [192 + n / 64, 128 + n % 64]
  else if n < 65536 then [224 + n / 4096, 128 + (n / 64) % 64, 128 + n % 64]
  else [240 + n / 262144, 128 + (n / 4096) % 64, 128 + (n / 64) % 64, 128 + n % 64]

/-- Characters `encodeURIComponent` leaves unescaped. -/
def isUriUnreserved (c : Char) : Bool :=
  c.isAlphanum || c == '-' || c == '_' || c == '.' || c == '!' || c == '~' ||
  c == '*' || c == Char.ofNat 39 || c == '(' || c == ')'

/-- Models JS `encodeURIComponent`. -/
def encodeURIComponent (s : String) : String :=
  String.mk (s.data.foldr
    (fun c acc =>
      if isUriUnreserved c then c :: acc
      else ((utf8Bytes c.toNat).foldr
        (fun b acc2 => '%' :: hexDigitChar (b / 16) :: hexDigitChar (b % 16) :: acc2) acc))
    [])

/-- The `<li><a ...>` line the directory listing emits for one file
(href is percent-encoded, the link text is the raw name). -/
def linkItem (f : String) : String :=
  "<li><a href=\"/tmp/" ++ encodeURIComponent f ++ "\">" ++ f ++ "</a></li>"

/-- The auto-generated directory-listing document for `/tmp/`
(httpStaticServer.ts lines 50-63): non-hidden files become links. -/
def listingHtml (files : List String) : String :=
  "<!DOCTYPE html><html><head><title>tmp Directory Listing</title></head><body><h1>Files in /tmp/</h1><ul>"
    ++ joinWith "\n" ((files.filter (fun f => !strStartsWith f ".")).map linkItem)
    ++ "</ul></body></html>"

/-- An HTTP reply: status code and body. -/
structure HttpReply where
  status : Nat
  body : String
deriving DecidableEq, Repr

/-- Shallow embedding of the request listener installed by
`startStaticHttpServer` (httpStaticServer.ts lines 37-83).  `readFileResult`
is the filesystem oracle for `fs.readFile` (`none` = error ⇒ 404) and
`readdirResult` the oracle for `fs.readdir` of the tmp directory. -/
def staticRequestListener (tmpDir : String) (readFileResult : String → Option String)
    (readdirResult : Except Unit (List String)) (url : String) : HttpReply :=
  if url == "" then ⟨400, "Bad Request"⟩
  else if !strStartsWith url "/tmp/" then ⟨404, "Not Found"⟩
  else if url == "/tmp/" || url == "/tmp" then
    match readdirResult with
    | .error _ => ⟨500, "Failed to read directory"⟩
    | .ok files => ⟨200, listingHtml files⟩
  else
    let filePath := pathJoin tmpDir (jsReplaceFirst url "/tmp/")
    if !strStartsWith filePath tmpDir then ⟨403, "Forbidden"⟩
    else
      match readFileResult filePath with
      | none => ⟨404, "Not Found"⟩
      | some data => ⟨200, data⟩

/-- A path is inside a directory when it is the directory itself or a
proper descendant (directory path followed by a separator). -/
def isInsideDir (dir p : String) : Bool := p == dir || strStartsWith p (dir ++ "/")

/-! ## Session manager (server.ts `ensureStagehand`, lines 111-154) -/

/-- The slice of `stagehandConfig` (server.ts lines 58-105) that
`ensureStagehand` and the dispatcher's diagnostic serialization read:
the environment selector, the Browserbase credentials and the local CDP
endpoint.  Provider wiring (LLM client objects, logger) is elided. -/
structure StagehandConfig where
  env : String
  apiKey : Option String
  projectId : Option String
  localCdpUrl : Option String
deriving DecidableEq, Repr

/-- Renders one optional string field the way `JSON.stringify` renders a
present field (absent fields are omitted from the output). -/
def jsonField (name : String) : Option String → String
  | none => ""
  | some v => ",\n  \"" ++ name ++ "\": \"" ++ v ++ "\""

/-- Models `JSON.stringify(stagehandConfig, null, 2)` (server.ts line 216)
restricted to the embedded fields: present credential fields are embedded
verbatim — the source applies no redaction on this path. -/
def configJson (cfg : StagehandConfig) : String :=
  "\x7b\n  \"env\": \"" ++ cfg.env ++ "\""
    ++ jsonField "apiKey" cfg.apiKey
    ++ jsonField "projectId" cfg.projectId
    ++ jsonField "cdpUrl" cfg.localCdpUrl
    ++ "\n\x7d"

/-- Oracle for the external automation library: the handle a
`new Stagehand(...)` allocation would produce, whether `init()` would
fail (with which message), and what the liveness probe
`page.evaluate(() => document.title)` does on a given handle
(`none` = succeeds, `some msg` = throws an `Error` with that message). -/
structure AutomationOracle where
  freshHandle : Nat
  initResult : Option String
  probe : Nat → Option String

/-- Result of one `ensureStagehand()` call: the returned handle or the
propagated error, the `stagehand` module variable afterwards, whether a
`new Stagehand` construction was attempted, and the lines appended to the
operation log (via `log(...)`, logging.ts; the call sites are in
server.ts). -/
structure EnsureOutcome where
  result : Except String Nat
  sessionAfter : Option Nat
  creationAttempted : Bool
  logAppends : List String
deriving Repr

/-- The configuration-error message thrown for LOCAL without a CDP URL
(server.ts lines 116-118). -/
def localCdpErrorMsg : String :=
  "Using a local browser without providing a CDP URL is not supported. Please provide a CDP URL using the LOCAL_CDP_URL environment variable.\n\nTo launch your browser in \"debug\", see our documentation.\n\nhttps://docs.stagehand.dev/examples/customize_browser#use-your-personal-browser"

/-- The invalidation-class test on a probe failure message
(server.ts lines 134-141). -/
def invalidationMsg (msg : String) : Bool :=
  containsStr msg "Target page, context or browser has been closed" ||
  containsStr msg "Session expired" ||
  containsStr msg "context destroyed"

/-- The fail-fast configuration check at the top of `ensureStagehand`
(server.ts lines 112-115): env is LOCAL and
`localBrowserLaunchOptions?.cdpUrl` is falsy (absent or empty). -/
def configInvalid (cfg : StagehandConfig) : Bool :=
  cfg.env == "LOCAL" &&
    (match cfg.localCdpUrl with | none => true | some u => u == "")

/-- The log line of the outer catch in `ensureStagehand` (server.ts line 151). -/
def ensureFailLog (msg : String) : String :=
  "Failed to initialize/reinitialize Stagehand: " ++ msg

/-- Shallow embedding of `ensureStagehand` (server.ts lines 111-154) over
the session state `st` (the module-level `stagehand` variable, `none`
until first creation) and the automation oracle.  Thrown values are
modeled as `Error`s carrying a message. -/
def ensureStagehand (cfg : StagehandConfig) (st : Option Nat) (o : AutomationOracle) :
    EnsureOutcome :=
  if configInvalid cfg then
    { result := .error localCdpErrorMsg, sessionAfter := st,
      creationAttempted := false, logAppends := [] }
  else
    match st with
    | none =>
      match o.initResult with
      | some m =>
        { result := .error m, sessionAfter := some o.freshHandle,
          creationAttempted := true, logAppends := [ensureFailLog m] }
      | none =>
        { result := .ok o.freshHandle, sessionAfter := some o.freshHandle,
          creationAttempted := true, logAppends := [] }
    | some h =>
      match o.probe h with
      | none =>
        { result := .ok h, sessionAfter := some h,
          creationAttempted := false, logAppends := [] }
      | some msg =>
        if invalidationMsg msg then
          match o.initResult with
          | some m =>
            { result := .error m, sessionAfter := some o.freshHandle,
              creationAttempted := true,
              logAppends := ["Browser session expired, reinitializing Stagehand...",
                             ensureFailLog m] }
          | none =>
            { result := .ok o.freshHandle, sessionAfter := some o.freshHandle,
              creationAttempted := true,
              logAppends := ["Browser session expired, reinitializing Stagehand..."] }
        else
          { result := .error msg, sessionAfter := some h,
            creationAttempted := false, logAppends := [ensureFailLog msg] }

/-! ## Tool registry and tool handlers (tools.ts) -/

/-- The names of the `TOOLS` registry (tools.ts lines 12-101). -/
def toolNames : List String :=
  ["stagehand_navigate", "stagehand_act", "stagehand_extract",
   "stagehand_observe", "stagehand_get_html", "screenshot"]

/-- A DOM element as the `stagehand_get_html` in-page script reads it. -/
structure ElementModel where
  tagName : String
  idAttr : String
  className : String
  outerHTML : String
deriving DecidableEq, Repr

/-- The page document as the `stagehand_get_html` in-page script reads it.
`xpathFirst` is the oracle for `document.evaluate(sel, document, null,
XPathResult.FIRST_ORDERED_NODE_TYPE, null).singleNodeValue` (first node in
document order; `Except.error` = the evaluation threw) and `cssFirst` the
oracle for `document.querySelector(sel)` (first match); `allElements` is
`document.querySelectorAll("*")` in document order. -/
structure DocumentModel where
  title : String
  href : String
  docHTML : String
  allElements : List ElementModel
  xpathFirst : String → Except String (Option ElementModel)
  cssFirst : String → Except String (Option ElementModel)

/-- Characters of the regex class `[.#\[\s>+~]` used to split a CSS
selector before its leading tag-name token (tools.ts line 324). -/
def isTagSplitChar (c : Char) : Bool :=
  c == '.' || c == '#' || c == '[' || c == '>' || c == '+' || c == '~' || isJsSpace c

/-- Models `selector.split(/[.#\[\s>+~]/)[0]`: the selector text before the
first delimiter character. -/
def leadingTagToken (sel : String) : String :=
  String.mk (sel.data.takeWhile (fun c => !isTagSplitChar c))

/-- The elements listed as "Similar Elements" in the CSS diagnostic
(tools.ts lines 320-326): all elements whose lowercased tag equals the
lowercased leading tag token, limited to the first 5. -/
def similarElements (doc : DocumentModel) (sel : String) : List ElementModel :=
  (doc.allElements.filter
    (fun el => strToLower el.tagName == strToLower (leadingTagToken sel))).take 5

/-- Rendering of one similar element, `&lt;tag id=".." class=".."&gt;`
(tools.ts lines 327-332); absent id/class are omitted (JS falsiness). -/
def renderSimilar (el : ElementModel) : String :=
  "&lt;" ++ strToLower el.tagName
    ++ (if el.idAttr == "" then "" else " id=\"" ++ el.idAttr ++ "\"")
    ++ (if el.className == "" then "" else " class=\"" ++ el.className ++ "\"")
    ++ "&gt;"

/-- The joined "Similar Elements" text, `"None found"` when empty
(tools.ts line 333, the `|| "None found"` on the joined string). -/
def similarText (doc : DocumentModel) (sel : String) : String :=
  let s := joinWith ", " ((similarElements doc sel).map renderSimilar)
  if s == "" then "None found" else s

/-- The diagnostic document returned when an XPath selector matches no
element (tools.ts lines 277-298). -/
def xpathNotFoundHtml (sel : String) (doc : DocumentModel) : String :=
  "<!DOCTYPE html>\n<html>\n<head><title>XPath Element Not Found</title></head>\n<body>\n<h1>XPath Element Not Found</h1>\n<p>The XPath selector did not match any elements on the page.</p>\n<h2>Details:</h2>\n<ul>\n  <li><strong>XPath Selector:</strong> "
    ++ sel
    ++ ("</li>\n  <li><strong>Document Title:</strong> " ++ doc.title
    ++ "</li>\n  <li><strong>Document URL:</strong> " ++ doc.href
    ++ "</li>\n  <li><strong>Page Content Length:</strong> " ++ toString doc.docHTML.length
    ++ " characters</li>\n</ul>\n<h2>Suggestions:</h2>\n<ul>\n  <li>Check if the XPath selector is correct</li>\n  <li>Verify that the element exists on the page</li>\n  <li>Try using browser developer tools to test the XPath selector</li>\n  <li>Consider using a CSS selector instead if possible</li>\n</ul>\n</body>\n</html>")

/-- The diagnostic document returned when a CSS selector matches no
element (tools.ts lines 305-345). -/
def cssNotFoundHtml (sel : String) (doc : DocumentModel) : String :=
  "<!DOCTYPE html>\n<html>\n<head><title>CSS Element Not Found</title></head>\n<body>\n<h1>CSS Element Not Found</h1>\n<p>The CSS selector did not match any elements on the page.</p>\n<h2>Details:</h2>\n<ul>\n  <li><strong>CSS Selector:</strong> "
    ++ sel
    ++ ("</li>\n  <li><strong>Document Title:</strong> " ++ doc.title
    ++ "</li>\n  <li><strong>Document URL:</strong> " ++ doc.href
    ++ "</li>\n  <li><strong>Page Content Length:</strong> " ++ toString doc.docHTML.length
    ++ " characters</li>\n  <li><strong>Similar Elements:</strong> " ++ similarText doc sel
    ++ "</li>\n</ul>\n<h2>Suggestions:</h2>\n<ul>\n  <li>Check if the CSS selector syntax is correct</li>\n  <li>Verify that the element exists on the page</li>\n  <li>Try using browser developer tools to test the CSS selector</li>\n  <li>Consider using a simpler selector (e.g., by ID or a unique class)</li>\n  <li>Check if the element is dynamically added to the page</li>\n</ul>\n</body>\n</html>")

/-- The short diagnostic string returned when selector evaluation throws
(tools.ts lines 349-353). -/
def selectorErrorMsg (e : String) : String :=
  "Selector error: " ++ e ++
    ". For XPath, use \x27//\x27 or \x27/\x27 prefix. For CSS, use standard selectors."

/-- The purely syntactic XPath-vs-CSS dispatch (tools.ts lines 262-266):
a selector starting with `/`, `./` or `//` counts as XPath. -/
def isXPathSelector (sel : String) : Bool :=
  strStartsWith sel "/" || strStartsWith sel "./" || strStartsWith sel "//"

/-- The in-page evaluation of `stagehand_get_html` (tools.ts lines
258-356): full document HTML without a (truthy) selector; otherwise XPath
or CSS first-match lookup with not-found diagnostics and a caught-error
string. -/
def getHtmlInPage (doc : DocumentModel) (selector : Option String) : String :=
  match selector with
  | none => doc.docHTML
  | some sel =>
    if sel == "" then doc.docHTML
    else if isXPathSelector sel then
      match doc.xpathFirst sel with
      | .error e => selectorErrorMsg e
      | .ok none => xpathNotFoundHtml sel doc
      | .ok (some el) => el.outerHTML
    else
      match doc.cssFirst sel with
      | .error e => selectorErrorMsg e
      | .ok none => cssNotFoundHtml sel doc
      | .ok (some el) => el.outerHTML

/-! ### The `stagehand_extract` cleanup pipeline (tools.ts lines 175-222) -/

/-- Character class `[a-zA-Z-]` of the CSS property-name regex. -/
def isPropChar (c : Char) : Bool := c.isAlpha || c == '-'

/-- Character class `[a-zA-Z0-9%\s\(\)\.,-]` of the CSS value regex. -/
def isValChar (c : Char) : Bool :=
  c.isAlphanum || c == '%' || isJsSpace c || c == '(' || c == ')' ||
  c == '.' || c == ',' || c == '-'

/-- Models `line.match(/^\.[a-zA-Z0-9_-]+\s*\x7b/)` being non-null: a dot,
one or more class-name characters, optional whitespace, opening brace. -/
def matchesClassBraceRe (line : String) : Bool :=
  match line.data with
  | [] => false
  | c :: rest =>
    c == '.' &&
    !(rest.takeWhile (fun d => d.isAlphanum || d == '_' || d == '-')).isEmpty &&
    (match (rest.dropWhile (fun d => d.isAlphanum || d == '_' || d == '-')).dropWhile isJsSpace with
     | c2 :: _ => c2 == braceL
     | [] => false)

/-- Models `line.match(/^[a-zA-Z-]+:[a-zA-Z0-9%\s\(\)\.,-]+;$/)` being
non-null: a whole line of the shape `property: value;`. -/
def matchesDeclRe (line : String) : Bool :=
  let cs := line.data
  !(cs.takeWhile isPropChar).isEmpty &&
  (match cs.dropWhile isPropChar with
   | ':' :: rest =>
     !(rest.takeWhile isValChar).isEmpty &&
     (match rest.dropWhile isValChar with
      | [';'] => true
      | _ => false)
   | _ => false)

/-- The filter predicate of the extract pipeline (tools.ts lines 183-195):
empty lines and CSS-looking lines are dropped. -/
def keepLine (line : String) : Bool :=
  if line == "" then false
  else if (containsStr line "\x7b" && containsStr line "\x7d") ||
          containsStr line "@keyframes" ||
          matchesClassBraceRe line || matchesDeclRe line then false
  else true

/-- Models `line.replace(/\\u([0-9a-fA-F]{4})/g, ...)` (tools.ts lines
196-200): each literal `\uXXXX` sequence becomes the character with that
code, scanning left to right without rescanning replacements. -/
def decodeUnicodeAux : Nat → List Char → List Char
  | 0, l => l
  | fuel + 1, l =>
    match l with
    | '\\' :: 'u' :: a :: b :: d :: e :: tail =>
      if isHexDigit a && isHexDigit b && isHexDigit d && isHexDigit e then
        Char.ofNat (hexVal a * 4096 + hexVal b * 256 + hexVal d * 16 + hexVal e)
          :: decodeUnicodeAux fuel tail
      else '\\' :: decodeUnicodeAux fuel ('u' :: a :: b :: d :: e :: tail)
    | c :: rest => c :: decodeUnicodeAux fuel rest
    | [] => []

/-- Entry point of the unescape scan; the fuel `l.length` bounds the scan
(every step consumes at least one character). -/
def decodeUnicodeEscapes (l : List Char) : List Char := decodeUnicodeAux l.length l

/-- The full extract cleanup (tools.ts lines 180-206): split on newlines,
trim, filter, unescape, join with newlines. -/
def extractClean (bodyText : String) : String :=
  joinWith "\n"
    (((((splitOnChar '\n' bodyText).map jsTrim).filter keepLine).map
      (fun l => String.mk (decodeUnicodeEscapes l.data))))

/-! ### Tool dispatch (tools.ts `handleToolCall`) -/

/-- Tool-call arguments as the handlers read them (absent string fields
behave as empty here; no claim depends on the `undefined` stringization). -/
structure ToolArgs where
  url : String := ""
  action : String := ""
  variablesMap : List (String × String) := []
  instruction : String := ""
  selector : Option String := none

/-- Oracle for the automation page operations a tool call performs, plus
the ambient values the handlers interpolate (session id, HTTP port, the
timestamp-plus-random artifact suffix, the screenshot timestamp name).
For the `Option String` fields `none` means the operation succeeded,
`some msg` that it threw an `Error` with that message. -/
structure PageModel where
  gotoResult : String → Option String
  actResult : String → List (String × String) → Option String
  innerTextResult : Except String String
  observeResult : String → Except String String
  screenshotResult : Except String String
  writeFileResult : Option String
  doc : DocumentModel
  browserbaseSessionID : String
  httpPort : String
  uniqueSuffix : String
  timestampName : String

/-- Side effects of one tool call: the artifact written to the tmp
directory (get_html) and the screenshot stored in the screenshot map. -/
structure ToolEffects where
  artifact : Option String := none
  screenshotSaved : Option (String × String) := none
deriving DecidableEq, Repr

/-- The operation-log text item appended to error envelopes. -/
def opLogItem (logs : List String) : ContentItem :=
  .text ("Operation logs:\n" ++ joinWith "\n" logs)

/-- Shallow embedding of `handleToolCall` (tools.ts lines 104-463): the
switch over tool names, each branch invoking its page operation through
the oracle and building the result envelope of the source. -/
def handleToolCall (name : String) (args : ToolArgs) (page : PageModel)
    (logs : List String) : CallToolResult × ToolEffects :=
  if name == "stagehand_navigate" then
    match page.gotoResult args.url with
    | none =>
      ({ content := [.text ("Navigated to: " ++ args.url),
                     .text ("View the live session here: https://browserbase.com/sessions/"
                            ++ page.browserbaseSessionID)],
         isError := false }, {})
    | some msg =>
      ({ content := [.text ("Failed to navigate: " ++ msg), opLogItem logs],
         isError := true }, {})
  else if name == "stagehand_act" then
    match page.actResult args.action args.variablesMap with
    | none =>
      ({ content := [.text ("Action performed: " ++ args.action)], isError := false }, {})
    | some msg =>
      ({ content := [.text ("Failed to perform action: " ++ msg), opLogItem logs],
         isError := true }, {})
  else if name == "stagehand_extract" then
    match page.innerTextResult with
    | .ok bodyText =>
      ({ content := [.text ("Extracted content:\n" ++ extractClean bodyText)],
         isError := false }, {})
    | .error msg =>
      ({ content := [.text ("Failed to extract content: " ++ msg)], isError := true }, {})
  else if name == "stagehand_observe" then
    match page.observeResult args.instruction with
    | .ok obs =>
      ({ content := [.text ("Observations: " ++ obs)], isError := false }, {})
    | .error msg =>
      ({ content := [.text ("Failed to observe: " ++ msg), opLogItem logs],
         isError := true }, {})
  else if name == "stagehand_get_html" then
    let sel : Option String :=
      match args.selector with
      | some s => if s == "" then none else some s
      | none => none
    let html := getHtmlInPage page.doc sel
    match page.writeFileResult with
    | some msg =>
      ({ content := [.text ("Failed to get HTML: " ++ msg), opLogItem logs],
         isError := true }, {})
    | none =>
      ({ content := [.text ("HTML saved to: http://localhost:" ++ page.httpPort
                            ++ "/tmp/stagehand-html-" ++ page.uniqueSuffix ++ ".html")],
         isError := false },
       { artifact := some html })
  else if name == "screenshot" then
    match page.screenshotResult with
    | .ok b64 =>
      ({ content := [.text ("Screenshot taken with name: screenshot-" ++ page.timestampName),
                     .image b64 "image/png"],
         isError := false },
       { screenshotSaved := some ("screenshot-" ++ page.timestampName, b64) })
    | .error msg =>
      ({ content := [.text ("Failed to take screenshot: " ++ msg), opLogItem logs],
         isError := true }, {})
  else
    ({ content := [.text ("Unknown tool: " ++ name), opLogItem logs], isError := true }, {})

/-! ## Tool dispatcher (server.ts `CallToolRequestSchema` handler, lines 195-249) -/

/-- The value a request handler hands back to the protocol layer: either a
tool-call result envelope or the protocol-level error object
`\x7berror: \x7bcode, message\x7d\x7d` built by the outer catch. -/
inductive McpResponse
  | envelope (r : CallToolResult)
  | protocolError (code : Int) (message : String)
deriving DecidableEq, Repr

/-- Modelled from the spec: `sanitizeMessage` lives in utils.ts, which is
not among the sources; per §7 it masks secret values in any serialized
output.  Modelled as applying a redaction function to every text item,
preserving envelope structure (the source serializes to JSON, redacts and
re-parses, which keeps the item structure). -/
def sanitizeResult (redact : String → String) (r : CallToolResult) : CallToolResult :=
  { content := r.content.map
      (fun item => match item with
        | .text s => .text (redact s)
        | .image d m => .image d m),
    isError := r.isError }

/-- Everything one `CallTool` dispatch produced: the response, the
operation log and session handle afterwards, whether `ensureStagehand`
was invoked, and the tool side effects. -/
structure DispatchOutcome where
  response : McpResponse
  logsAfter : List String
  sessionAfter : Option Nat
  ensureAttempted : Bool
  effects : ToolEffects

/-- Shallow embedding of the `CallToolRequestSchema` handler (server.ts
lines 195-249).  In order: the operation log is cleared, the tool name is
validated against the registry (failure throws, and the outer catch turns
the throw into a protocol error object), `ensureStagehand` runs (failure
returns an error envelope embedding the serialized configuration and the
log), then `handleToolCall` runs and its result passes through
`sanitizeMessage`. -/
def dispatch (cfg : StagehandConfig) (st : Option Nat) (o : AutomationOracle)
    (page : PageModel) (args : ToolArgs) (redact : String → String)
    (_logs0 : List String) (name : String) : DispatchOutcome :=
  let logs1 : List String := []
  if name == "" || !(toolNames.contains name) then
    { response := .protocolError (-32603) ("Internal error: Invalid tool name: " ++ name),
      logsAfter := logs1, sessionAfter := st, ensureAttempted := false, effects := {} }
  else
    let eo := ensureStagehand cfg st o
    let logs2 := logs1 ++ eo.logAppends
    match eo.result with
    | .error msg =>
      { response := .envelope
          { content := [.text ("Failed to initialize Stagehand: " ++ msg
                               ++ ".\n\nConfig: " ++ configJson cfg),
                        opLogItem logs2],
            isError := true },
        logsAfter := logs2, sessionAfter := eo.sessionAfter,
        ensureAttempted := true, effects := {} }
    | .ok _ =>
      let res := handleToolCall name args page logs2
      { response := .envelope (sanitizeResult redact res.1),
        logsAfter := logs2, sessionAfter := eo.sessionAfter,
        ensureAttempted := true, effects := res.2 }

/-- The text fragments of a response, for stating containment properties. -/
def responseTexts : McpResponse → List String
  | .envelope r =>
    r.content.filterMap (fun item => match item with
      | .text s => some s
      | .image _ _ => none)
  | .protocolError _ m => [m]

/-! ## Spec-worded extract pipeline (for the refinement claim C8) -/

/-- Modelled from the spec: the extract cleanup exactly as §4.4 words it —
"split into lines, trim each line, drop lines that contain both braces,
drop `@keyframes` lines, drop lines matching a leading `.class \x7b`
pattern, drop lines matching a single CSS declaration pattern, then decode
`\uXXXX` escapes and join with newlines."  No other drop is mentioned; in
particular empty lines are kept. -/
def extractCleanSpec (bodyText : String) : String :=
  joinWith "\n"
    (((((splitOnChar '\n' bodyText).map jsTrim).filter
        (fun line =>
          !((containsStr line "\x7b" && containsStr line "\x7d") ||
            containsStr line "@keyframes" ||
            matchesClassBraceRe line || matchesDeclRe line))).map
      (fun l => String.mk (decodeUnicodeEscapes l.data))))

/-- The spec pipeline amended with the one drop the source adds: lines
that are empty after trimming are removed too. -/
def extractCleanSpecAmended (bodyText : String) : String :=
  joinWith "\n"
    (((((splitOnChar '\n' bodyText).map jsTrim).filter
        (fun line =>
          line ≠ "" &&
          !((containsStr line "\x7b" && containsStr line "\x7d") ||
            containsStr line "@keyframes" ||
            matchesClassBraceRe line || matchesDeclRe line))).map
      (fun l => String.mk (decodeUnicodeEscapes l.data))))

/-! ## Concrete fixtures used by witnesses and counterexamples -/

/-- A sample DOM element. -/
def sampleDiv : ElementModel :=
  { tagName := "DIV", idAttr := "main", className := "container",
    outerHTML := "<div id=\"main\" class=\"container\"></div>" }

/-- A sample document on which no selector matches. -/
def sampleDoc : DocumentModel :=
  { title := "Sample", href := "http://example.com/",
    docHTML := "<html><body></body></html>",
    allElements := [sampleDiv],
    xpathFirst := fun _ => .ok none,
    cssFirst := fun _ => .ok none }

/-- A sample document on which `div` (CSS) and `//div` (XPath) match. -/
def sampleFoundDoc : DocumentModel :=
  { sampleDoc with
    cssFirst := fun s => if s == "div" then .ok (some sampleDiv) else .ok none,
    xpathFirst := fun s => if s == "//div" then .ok (some sampleDiv) else .ok none }

/-- A page oracle on which every operation succeeds. -/
def samplePage : PageModel :=
  { gotoResult := fun _ => none, actResult := fun _ _ => none,
    innerTextResult := .ok "", observeResult := fun _ => .ok "[]",
    screenshotResult := .ok "aW1n", writeFileResult := none,
    doc := sampleDoc, browserbaseSessionID := "sess-123",
    httpPort := "8080", uniqueSuffix := "1760227200000-a1b2c3",
    timestampName := "2026-10-12T00-00-00.000Z" }

/-- A page whose navigation fails. -/
def failNavPage : PageModel :=
  { samplePage with gotoResult := fun _ => some "net::ERR_FAILED" }

/-- A page whose `document.body.innerText` evaluation fails. -/
def failExtractPage : PageModel :=
  { samplePage with innerTextResult := .error "boom" }

/-- A Browserbase configuration carrying a secret API key. -/
def cfgBrowserbase : StagehandConfig :=
  { env := "BROWSERBASE", apiKey := some "bb-secret-key-AAAA",
    projectId := some "proj-1", localCdpUrl := none }

/-- The same configuration with a different secret. -/
def cfgBrowserbaseB : StagehandConfig :=
  { cfgBrowserbase with apiKey := some "bb-secret-key-BBBB" }

/-- A LOCAL configuration without a CDP endpoint. -/
def cfgLocalNoCdp : StagehandConfig :=
  { env := "LOCAL", apiKey := none, projectId := none, localCdpUrl := none }

/-- Automation oracle: everything succeeds. -/
def oracleOk : AutomationOracle :=
  { freshHandle := 1, initResult := none, probe := fun _ => none }

/-- Automation oracle: the probe fails with an invalidation-class message. -/
def oracleProbeInvalid : AutomationOracle :=
  { freshHandle := 2, initResult := none, probe := fun _ => some "Session expired" }

/-- Automation oracle: the probe fails with an unrelated message. -/
def oracleProbeOther : AutomationOracle :=
  { freshHandle := 3, initResult := none, probe := fun _ => some "some unrelated failure" }

/-- Automation oracle: `init()` fails. -/
def oracleInitFail : AutomationOracle :=
  { freshHandle := 4, initResult := some "boom", probe := fun _ => none }

/-- The filesystem for the path-escape scenario: a secret file in a
sibling directory `tmp-evil` whose name extends the artifact directory
name as a string. -/
def evilFs : String → Option String := fun p =>
  if p == "/app/tmp-evil/secret.html" then some "TOP-SECRET"
  else if p == "/app/tmp/ok.html" then some "OK" else none

/-! ## Substring lemmas -/

theorem listHasPrefix_refl (l : List Char) : listHasPrefix l l = true := by
  induction l with
  | nil => rfl
  | cons a t ih => simp [listHasPrefix, ih]

theorem listHasPrefix_self_append (p r : List Char) : listHasPrefix (p ++ r) p = true := by
  induction p with
  | nil => cases r <;> rfl
  | cons a t ih => simp [listHasPrefix, ih]

theorem listHasPrefix_extend {l p : List Char} (y : List Char)
    (h : listHasPrefix l p = true) : listHasPrefix (l ++ y) p = true := by
  induction p generalizing l with
  | nil => cases l <;> cases y <;> rfl
  | cons b bs ih =>
    cases l with
    | nil => simp [listHasPrefix] at h
    | cons a t =>
      simp only [listHasPrefix, Bool.and_eq_true] at h
      simp only [List.cons_append, listHasPrefix, Bool.and_eq_true]
      exact ⟨h.1, ih h.2⟩

theorem listContainsSub_nil_pat (l : List Char) : listContainsSub l [] = true := by
  cases l <;> simp [listContainsSub, listHasPrefix, List.isEmpty]

theorem listContainsSub_of_prefix {l p : List Char}
    (h : listHasPrefix l p = true) : listContainsSub l p = true := by
  cases l with
  | nil =>
    cases p with
    | nil => rfl
    | cons b bs => simp [listHasPrefix] at h
  | cons a t => simp [listContainsSub, h]

theorem listContainsSub_append_left {x p : List Char} (y : List Char)
    (h : listContainsSub x p = true) : listContainsSub (x ++ y) p = true := by
  induction x with
  | nil =>
    simp only [listContainsSub, List.isEmpty_iff] at h
    subst h
    exact listContainsSub_nil_pat y
  | cons a t ih =>
    simp only [listContainsSub, Bool.or_eq_true] at h
    rcases h with h | h
    · exact listContainsSub_of_prefix (listHasPrefix_extend y h)
    · simp only [List.cons_append, listContainsSub, Bool.or_eq_true]
      exact Or.inr (ih h)

theorem listContainsSub_append_right (x : List Char) {y p : List Char}
    (h : listContainsSub y p = true) : listContainsSub (x ++ y) p = true := by
  induction x with
  | nil => exact h
  | cons a t ih =>
    simp only [List.cons_append, listContainsSub, Bool.or_eq_true]
    exact Or.inr ih

theorem string_data_append (a b : String) : (a ++ b).data = a.data ++ b.data := rfl

theorem containsStr_append_left {a p : String} (b : String)
    (h : containsStr a p = true) : containsStr (a ++ b) p = true := by
  unfold containsStr at h ⊢
  rw [string_data_append]
  exact listContainsSub_append_left b.data h

theorem containsStr_append_right (a : String) {b p : String}
    (h : containsStr b p = true) : containsStr (a ++ b) p = true := by
  unfold containsStr at h ⊢
  rw [string_data_append]
  exact listContainsSub_append_right a.data h

theorem containsStr_self (s : String) : containsStr s s = true :=
  listContainsSub_of_prefix (listHasPrefix_refl s.data)

theorem containsStr_self_append (p r : String) : containsStr (p ++ r) p = true := by
  unfold containsStr
  rw [string_data_append]
  exact listContainsSub_of_prefix (listHasPrefix_self_append p.data r.data)

theorem containsStr_join_of_mem (sep : String) :
    ∀ (xs : List String) (x : String), x ∈ xs → containsStr (joinWith sep xs) x = true := by
  intro xs
  induction xs with
  | nil => intro x hx; cases hx
  | cons a t ih =>
    intro x hx
    cases t with
    | nil =>
      have hxa : x = a := by simpa using hx
      subst hxa
      exact containsStr_self x
    | cons b t2 =>
      rcases List.mem_cons.mp hx with hxa | hxt
      · subst hxa
        show containsStr (x ++ sep ++ joinWith sep (b :: t2)) x = true
        exact containsStr_append_left _ (containsStr_self_append x sep)
      · show containsStr (a ++ sep ++ joinWith sep (b :: t2)) x = true
        exact containsStr_append_right _ (ih x hxt)

/-! ## Claim theorems -/

/-- Claim C2 (code bug): the Static Artifact Server's containment check is
a raw string-prefix test (`filePath.startsWith(TMP_DIR)`), so a `../` path
that lands in a sibling directory whose name extends the artifact
directory's name (here `/app/tmp-evil` vs `/app/tmp`) passes the check,
and the file's content is served with status 200 even though the resolved
path is outside the artifact directory.  A `../` path to a non-prefix
directory is correctly rejected with 403. -/
theorem staticServer_path_escape_bug :
    staticRequestListener "/app/tmp" evilFs (.ok []) "/tmp/../tmp-evil/secret.html"
      = ⟨200, "TOP-SECRET"⟩ ∧
    pathJoin "/app/tmp" (jsReplaceFirst "/tmp/../tmp-evil/secret.html" "/tmp/")
      = "/app/tmp-evil/secret.html" ∧
    isInsideDir "/app/tmp" "/app/tmp-evil/secret.html" = false ∧
    staticRequestListener "/app/tmp" evilFs (.ok []) "/tmp/../etc/passwd"
      = ⟨403, "Forbidden"⟩ :=
  ⟨by decide, by decide, by decide, by decide⟩

/-- Claim C6 (counterexample): a request for `/tmp` without the trailing
slash does not return the directory listing — it fails the
`startsWith("/tmp/")` routing check first and receives 404. -/
theorem staticServer_prefix_counterexample :
    staticRequestListener "/app/tmp" evilFs (.ok ["a.html"]) "/tmp"
      = ⟨404, "Not Found"⟩ ∧
    staticRequestListener "/app/tmp" evilFs (.ok ["a.html"]) "/tmp/"
      = ⟨200, listingHtml ["a.html"]⟩ := by
  constructor
  · decide
  · decide

/-- Claim C6 (amended): a GET for exactly `/tmp/` (with the trailing
slash) returns the auto-generated HTML listing, which links every current
non-hidden file; `/tmp` without the slash — like every non-empty path not
starting with `/tmp/` — receives a not-found status (the empty request
path receives bad-request). -/
theorem staticServer_routing_amended :
    ∀ (tmpDir : String) (fsRead : String → Option String) (files : List String)
      (url : String),
      (url ≠ "" → strStartsWith url "/tmp/" = false →
        staticRequestListener tmpDir fsRead (.ok files) url = ⟨404, "Not Found"⟩) ∧
      (staticRequestListener tmpDir fsRead (.ok files) "/tmp" = ⟨404, "Not Found"⟩) ∧
      (staticRequestListener tmpDir fsRead (.ok files) "/tmp/" = ⟨200, listingHtml files⟩) ∧
      (∀ f ∈ files, strStartsWith f "." = false →
        containsStr (listingHtml files) (linkItem f) = true) := by
  intro tmpDir fsRead files url
  refine ⟨?_, ?_, ?_, ?_⟩
  · intro hne hpre
    have hbe : (url == "") = false := beq_eq_false_iff_ne.mpr hne
    simp [staticRequestListener, hbe, hpre]
  · have h1 : strStartsWith "/tmp" "/tmp/" = false := by decide
    simp [staticRequestListener, h1]
  · have h1 : strStartsWith "/tmp/" "/tmp/" = true := by decide
    simp [staticRequestListener, h1]
  · intro f hf hhid
    have hmem : f ∈ files.filter (fun g => !strStartsWith g ".") :=
      List.mem_filter.mpr ⟨hf, by simp [hhid]⟩
    have hlink : linkItem f ∈ (files.filter (fun g => !strStartsWith g ".")).map linkItem :=
      List.mem_map_of_mem linkItem hmem
    have hjoin := containsStr_join_of_mem "\n" _ _ hlink
    unfold listingHtml
    exact containsStr_append_left _ (containsStr_append_right _ hjoin)

/-- Claim C6 (witness): concrete instance of `staticServer_routing_amended`
— an unrelated path 404s, `/tmp/` yields the listing, and the listing
links the non-hidden file. -/
theorem staticServer_routing_amended_witness :
    staticRequestListener "/app/tmp" evilFs (.ok ["a.html", ".hidden"]) "/x"
      = ⟨404, "Not Found"⟩ ∧
    staticRequestListener "/app/tmp" evilFs (.ok ["a.html", ".hidden"]) "/tmp/"
      = ⟨200, listingHtml ["a.html", ".hidden"]⟩ ∧
    containsStr (listingHtml ["a.html", ".hidden"]) (linkItem "a.html") = true :=
  ⟨(staticServer_routing_amended "/app/tmp" evilFs ["a.html", ".hidden"] "/x").1
      (by decide) (by decide),
   (staticServer_routing_amended "/app/tmp" evilFs ["a.html", ".hidden"] "/x").2.2.1,
   (staticServer_routing_amended "/app/tmp" evilFs ["a.html", ".hidden"] "/x").2.2.2
      "a.html" (by decide) (by decide)⟩

/-- Claim C9: a resolved configuration selecting the LOCAL environment
without a CDP endpoint makes every `ensureStagehand` call fail with the
configuration-error message before any session construction is attempted,
leaving the stored session untouched (no silent fallback). -/
theorem ensureStagehand_local_config_error :
    ∀ (cfg : StagehandConfig) (st : Option Nat) (o : AutomationOracle),
      cfg.env = "LOCAL" → cfg.localCdpUrl = none →
      ensureStagehand cfg st o =
        { result := .error localCdpErrorMsg, sessionAfter := st,
          creationAttempted := false, logAppends := [] } := by
  intro cfg st o h1 h2
  have hc : configInvalid cfg = true := by simp [configInvalid, h1, h2]
  simp [ensureStagehand, hc]

/-- Claim C9 (witness): the LOCAL-without-CDP fixture fails with the
configuration error and attempts no session creation. -/
theorem ensureStagehand_local_config_error_witness :
    ensureStagehand cfgLocalNoCdp (some 7) oracleOk =
      { result := .error localCdpErrorMsg, sessionAfter := some 7,
        creationAttempted := false, logAppends := [] } :=
  ensureStagehand_local_config_error cfgLocalNoCdp (some 7) oracleOk rfl rfl

/-- Claim C5: with a session handle stored and a valid configuration,
`ensureStagehand` (a) returns the same handle unchanged when the liveness
probe succeeds, (b) on a probe failure of the invalidation class discards
the handle and creates, stores and returns the fresh handle (a different
identity when the new allocation differs from the old handle), and (c)
propagates any other probe failure unchanged. -/
theorem ensureStagehand_liveness :
    ∀ (cfg : StagehandConfig) (o : AutomationOracle) (h : Nat),
      configInvalid cfg = false →
      ((o.probe h = none →
        ensureStagehand cfg (some h) o =
          { result := .ok h, sessionAfter := some h,
            creationAttempted := false, logAppends := [] }) ∧
       (∀ msg, o.probe h = some msg → invalidationMsg msg = true → o.initResult = none →
        ensureStagehand cfg (some h) o =
          { result := .ok o.freshHandle, sessionAfter := some o.freshHandle,
            creationAttempted := true,
            logAppends := ["Browser session expired, reinitializing Stagehand..."] } ∧
        (o.freshHandle ≠ h → (ensureStagehand cfg (some h) o).result ≠ .ok h)) ∧
       (∀ msg, o.probe h = some msg → invalidationMsg msg = false →
        ensureStagehand cfg (some h) o =
          { result := .error msg, sessionAfter := some h,
            creationAttempted := false, logAppends := [ensureFailLog msg] })) := by
  intro cfg o h hc
  refine ⟨?_, ?_, ?_⟩
  · intro hp
    simp [ensureStagehand, hc, hp]
  · intro msg hp hinv hinit
    constructor
    · simp [ensureStagehand, hc, hp, hinv, hinit]
    · intro hne
      simp [ensureStagehand, hc, hp, hinv, hinit, hne]
  · intro msg hp hinv
    simp [ensureStagehand, hc, hp, hinv]

/-- Claim C5 (witness): concrete instances — a healthy probe keeps handle
5, an expired-session probe replaces it with fresh handle 2, and an
unrelated probe failure is propagated verbatim. -/
theorem ensureStagehand_liveness_witness :
    ensureStagehand cfgBrowserbase (some 5) oracleOk =
      { result := .ok 5, sessionAfter := some 5,
        creationAttempted := false, logAppends := [] } ∧
    ensureStagehand cfgBrowserbase (some 5) oracleProbeInvalid =
      { result := .ok 2, sessionAfter := some 2, creationAttempted := true,
        logAppends := ["Browser session expired, reinitializing Stagehand..."] } ∧
    (ensureStagehand cfgBrowserbase (some 5) oracleProbeInvalid).result ≠ .ok 5 ∧
    ensureStagehand cfgBrowserbase (some 5) oracleProbeOther =
      { result := .error "some unrelated failure", sessionAfter := some 5,
        creationAttempted := false,
        logAppends := [ensureFailLog "some unrelated failure"] } :=
  ⟨(ensureStagehand_liveness cfgBrowserbase oracleOk 5 (by decide)).1 rfl,
   ((ensureStagehand_liveness cfgBrowserbase oracleProbeInvalid 5 (by decide)).2.1
      "Session expired" rfl (by decide) rfl).1,
   ((ensureStagehand_liveness cfgBrowserbase oracleProbeInvalid 5 (by decide)).2.1
      "Session expired" rfl (by decide) rfl).2 (by decide),
   (ensureStagehand_liveness cfgBrowserbase oracleProbeOther 5 (by decide)).2.2
      "some unrelated failure" rfl (by decide)⟩

/-- Claim C1 (counterexample): dispatching the unknown tool name
`bogus_tool` yields a protocol-level error object (not an `isError: true`
result envelope), and the previously non-empty operation log has been
cleared. -/
theorem dispatch_unknown_tool_counterexample :
    dispatch cfgBrowserbase (some 5) oracleOk samplePage {} id ["old line"] "bogus_tool"
      = { response := .protocolError (-32603) "Internal error: Invalid tool name: bogus_tool",
          logsAfter := [], sessionAfter := some 5, ensureAttempted := false,
          effects := {} } ∧
    (dispatch cfgBrowserbase (some 5) oracleOk samplePage {} id ["old line"]
        "bogus_tool").logsAfter ≠ ["old line"] := by
  constructor
  · rfl
  · decide

/-- Claim C1 (amended): for a tool name absent from the registry,
dispatch returns a protocol-level error object (code -32603, message
`Internal error: Invalid tool name: `name) without raising to the
transport and without invoking `ensureStagehand` — but the operation log
is cleared (the clear precedes the name check). -/
theorem dispatch_unknown_tool_amended :
    ∀ (cfg : StagehandConfig) (st : Option Nat) (o : AutomationOracle)
      (page : PageModel) (args : ToolArgs) (redact : String → String)
      (logs0 : List String) (name : String),
      toolNames.contains name = false →
      dispatch cfg st o page args redact logs0 name =
        { response := .protocolError (-32603)
            ("Internal error: Invalid tool name: " ++ name),
          logsAfter := [], sessionAfter := st, ensureAttempted := false,
          effects := {} } := by
  intro cfg st o page args redact logs0 name h
  have hmem : ¬ name ∈ toolNames := by simpa using h
  simp [dispatch, h]
  exact fun _ hmem2 => absurd hmem2 hmem

/-- Claim C1 (amended, witness): concrete application at `bogus_tool_2`
with a populated prior log. -/
theorem dispatch_unknown_tool_amended_witness :
    dispatch cfgBrowserbase none oracleOk samplePage {} id ["earlier"] "bogus_tool_2"
      = { response := .protocolError (-32603)
            ("Internal error: Invalid tool name: " ++ "bogus_tool_2"),
          logsAfter := [], sessionAfter := none, ensureAttempted := false,
          effects := {} } :=
  dispatch_unknown_tool_amended cfgBrowserbase none oracleOk samplePage {} id
    ["earlier"] "bogus_tool_2" (by decide)

/-- Claim C3 (code bug): when `ensureStagehand` fails, the dispatcher's
error envelope embeds `JSON.stringify(stagehandConfig)` and is returned
directly, bypassing the sanitization applied to every other response
path; the secret API key appears verbatim (for every redaction function),
and two runs differing only in the secret produce different envelope
text. -/
theorem dispatch_config_secret_leak :
    ∀ redact : String → String,
      (dispatch cfgBrowserbase none oracleInitFail samplePage {} redact []
          "stagehand_navigate").response
        = .envelope
            { content := [.text ("Failed to initialize Stagehand: boom.\n\nConfig: "
                                 ++ configJson cfgBrowserbase),
                          opLogItem [ensureFailLog "boom"]],
              isError := true } ∧
      (dispatch cfgBrowserbaseB none oracleInitFail samplePage {} redact []
          "stagehand_navigate").response
        = .envelope
            { content := [.text ("Failed to initialize Stagehand: boom.\n\nConfig: "
                                 ++ configJson cfgBrowserbaseB),
                          opLogItem [ensureFailLog "boom"]],
              isError := true } ∧
      containsStr ("Failed to initialize Stagehand: boom.\n\nConfig: "
                   ++ configJson cfgBrowserbase) "bb-secret-key-AAAA" = true ∧
      ("Failed to initialize Stagehand: boom.\n\nConfig: " ++ configJson cfgBrowserbase)
        ≠ ("Failed to initialize Stagehand: boom.\n\nConfig: " ++ configJson cfgBrowserbaseB) := by
  intro redact
  refine ⟨rfl, rfl, by decide, by decide⟩

/-- Claim C10: a successful `stagehand_act` call returns exactly one text
item `Action performed: `action with `isError: false`, and this envelope
does not depend on the variables substitution map — two successful runs
differing only in the variables produce identical results. -/
theorem act_success_envelope_independent :
    ∀ (page : PageModel) (args : ToolArgs) (v2 : List (String × String))
      (logs : List String),
      page.actResult args.action args.variablesMap = none →
      page.actResult args.action v2 = none →
      handleToolCall "stagehand_act" args page logs
        = ({ content := [.text ("Action performed: " ++ args.action)],
             isError := false }, {}) ∧
      handleToolCall "stagehand_act" { args with variablesMap := v2 } page logs
        = handleToolCall "stagehand_act" args page logs := by
  intro page args v2 logs h1 h2
  constructor
  · simp [handleToolCall, h1]
  · simp [handleToolCall, h1, h2]

/-- Claim C10 (witness): concrete runs with two different password
variables yield the same canonical success envelope. -/
theorem act_success_envelope_independent_witness :
    handleToolCall "stagehand_act"
        { action := "Fill in the password", variablesMap := [("password", "other")] }
        samplePage []
      = ({ content := [.text ("Action performed: " ++ "Fill in the password")],
           isError := false }, {}) ∧
    handleToolCall "stagehand_act"
        { action := "Fill in the password", variablesMap := [("password", "hunter2")] }
        samplePage []
      = handleToolCall "stagehand_act"
          { action := "Fill in the password", variablesMap := [("password", "other")] }
          samplePage [] := by
  have h := act_success_envelope_independent samplePage
    { action := "Fill in the password", variablesMap := [("password", "other")] }
    [("password", "hunter2")] [] rfl rfl
  exact ⟨h.1, h.2⟩

/-- Claim C4 (counterexample): the `stagehand_extract` error branch
returns an `isError: true` envelope containing only the failure text —
no operation-log text item. -/
theorem error_envelope_log_counterexample :
    (handleToolCall "stagehand_extract" {} failExtractPage ["L1"]).1
      = { content := [.text "Failed to extract content: boom"], isError := true } ∧
    opLogItem ["L1"] ∉ (handleToolCall "stagehand_extract" {} failExtractPage ["L1"]).1.content := by
  constructor
  · rfl
  · decide

/-- Claim C4 (amended): every `isError: true` envelope `handleToolCall`
returns has a text item as its first content item (describing the
failure), and every error branch except `stagehand_extract`'s also
contains the current operation-log text item. -/
theorem error_envelope_amended :
    ∀ (name : String) (args : ToolArgs) (page : PageModel) (logs : List String),
      (handleToolCall name args page logs).1.isError = true →
      (∃ s, (handleToolCall name args page logs).1.content.head? = some (.text s)) ∧
      (name ≠ "stagehand_extract" →
        opLogItem logs ∈ (handleToolCall name args page logs).1.content) := by
  intro name args page logs herr
  by_cases h1 : name = "stagehand_navigate"
  · subst h1
    cases hg : page.gotoResult args.url with
    | none => simp [handleToolCall, hg] at herr
    | some msg =>
      refine ⟨⟨"Failed to navigate: " ++ msg, ?_⟩, fun _ => ?_⟩ <;>
        simp [handleToolCall, hg]
  by_cases h2 : name = "stagehand_act"
  · subst h2
    cases ha : page.actResult args.action args.variablesMap with
    | none => simp [handleToolCall, ha] at herr
    | some msg =>
      refine ⟨⟨"Failed to perform action: " ++ msg, ?_⟩, fun _ => ?_⟩ <;>
        simp [handleToolCall, ha]
  by_cases h3 : name = "stagehand_extract"
  · subst h3
    cases he : page.innerTextResult with
    | ok s => simp [handleToolCall, he] at herr
    | error msg =>
      refine ⟨⟨"Failed to extract content: " ++ msg, ?_⟩, fun hne => absurd rfl hne⟩
      simp [handleToolCall, he]
  by_cases h4 : name = "stagehand_observe"
  · subst h4
    cases ho : page.observeResult args.instruction with
    | ok s => simp [handleToolCall, ho] at herr
    | error msg =>
      refine ⟨⟨"Failed to observe: " ++ msg, ?_⟩, fun _ => ?_⟩ <;>
        simp [handleToolCall, ho]
  by_cases h5 : name = "stagehand_get_html"
  · subst h5
    cases hw : page.writeFileResult with
    | none => simp [handleToolCall, hw] at herr
    | some msg =>
      refine ⟨⟨"Failed to get HTML: " ++ msg, ?_⟩, fun _ => ?_⟩ <;>
        simp [handleToolCall, hw]
  by_cases h6 : name = "screenshot"
  · subst h6
    cases hs : page.screenshotResult with
    | ok s => simp [handleToolCall, hs] at herr
    | error msg =>
      refine ⟨⟨"Failed to take screenshot: " ++ msg, ?_⟩, fun _ => ?_⟩ <;>
        simp [handleToolCall, hs]
  · refine ⟨⟨"Unknown tool: " ++ name, ?_⟩, fun _ => ?_⟩ <;>
      simp [handleToolCall, h1, h2, h3, h4, h5, h6]

/-- Claim C4 (amended, witness): a failing navigation yields an error
envelope whose first item is a text item and whose content includes the
operation-log item. -/
theorem error_envelope_amended_witness :
    (∃ s, (handleToolCall "stagehand_navigate" {} failNavPage ["L0"]).1.content.head?
            = some (.text s)) ∧
    opLogItem ["L0"] ∈ (handleToolCall "stagehand_navigate" {} failNavPage ["L0"]).1.content := by
  have h := error_envelope_amended "stagehand_navigate" {} failNavPage ["L0"] (by decide)
  exact ⟨h.1, h.2 (by decide)⟩

/-- Helper for C8: the source's keep-line predicate equals the amended
spec wording (non-empty and not CSS-looking). -/
theorem keepLine_eq (line : String) :
    keepLine line =
      (line ≠ "" &&
       !((containsStr line "\x7b" && containsStr line "\x7d") ||
         containsStr line "@keyframes" ||
         matchesClassBraceRe line || matchesDeclRe line)) := by
  unfold keepLine
  by_cases h : line = ""
  · subst h
    simp
  · have hb : (line == "") = false := beq_eq_false_iff_ne.mpr h
    cases hC : ((containsStr line "\x7b" && containsStr line "\x7d") ||
        containsStr line "@keyframes" ||
        matchesClassBraceRe line || matchesDeclRe line) <;> simp [hb, hC, h]

/-- Claim C8 (counterexample): on the page text `"Hello\n\nWorld"` the
pipeline described by the claim (which never drops empty lines) keeps the
blank line, while the source's `extract` drops it — the claim's
description of the code is incomplete. -/
theorem extract_pipeline_counterexample :
    extractCleanSpec "Hello\n\nWorld" = "Hello\n\nWorld" ∧
    extractClean "Hello\n\nWorld" = "Hello\nWorld" :=
  ⟨by decide, by decide⟩

/-- Claim C8 (amended): the source's extract cleanup equals the claimed
pipeline amended with one extra drop — lines that are empty after
trimming are removed as well; in particular the claimed CSS-line example
and the `\uXXXX` decoding behave as stated. -/
theorem extract_pipeline_amended :
    (∀ s : String, extractClean s = extractCleanSpecAmended s) ∧
    extractClean "color: blue;\nHello world" = "Hello world" ∧
    extractClean "Height: 10px;\nHello \\u0041 world\n.btn \x7b\nkeep me"
      = "Hello A world\nkeep me" := by
  refine ⟨fun s => ?_, by decide, by decide⟩
  unfold extractClean extractCleanSpecAmended
  congr 1
  congr 1
  exact List.filter_congr (fun x _ => keepLine_eq x)

/-- Helper for C7: an XPath-classified selector is never empty. -/
theorem isXPathSelector_ne_empty {sel : String} (h : isXPathSelector sel = true) :
    sel ≠ "" := by
  intro he
  subst he
  exact absurd h (by decide)

/-- Claim C7: `getHtml`'s selector dispatch is purely syntactic (leading
`/`, `./`, `//` means XPath, else CSS); a found element yields its
`outerHTML` (the oracle being first-ordered-node / first match); a missing
XPath selector yields a diagnostic document containing the literal
`XPath Element Not Found` and the selector text; a missing CSS selector
yields a diagnostic containing `CSS Element Not Found`, the selector text,
and at most 5 similar elements, all sharing the selector's leading
tag-name token; and with the file write succeeding the tool envelope is
`isError: false` with the diagnostic written as the artifact. -/
theorem getHtml_selector_dispatch :
    ∀ (page : PageModel) (args : ToolArgs) (logs : List String) (sel : String),
      (isXPathSelector sel = true → page.doc.xpathFirst sel = .ok none →
        containsStr (getHtmlInPage page.doc (some sel)) "XPath Element Not Found" = true ∧
        containsStr (getHtmlInPage page.doc (some sel)) sel = true) ∧
      (∀ el, isXPathSelector sel = true → page.doc.xpathFirst sel = .ok (some el) →
        getHtmlInPage page.doc (some sel) = el.outerHTML) ∧
      (sel ≠ "" → isXPathSelector sel = false → page.doc.cssFirst sel = .ok none →
        containsStr (getHtmlInPage page.doc (some sel)) "CSS Element Not Found" = true ∧
        containsStr (getHtmlInPage page.doc (some sel)) sel = true ∧
        (similarElements page.doc sel).length ≤ 5 ∧
        (∀ el ∈ similarElements page.doc sel,
          strToLower el.tagName = strToLower (leadingTagToken sel))) ∧
      (∀ el, sel ≠ "" → isXPathSelector sel = false → page.doc.cssFirst sel = .ok (some el) →
        getHtmlInPage page.doc (some sel) = el.outerHTML) ∧
      (args.selector = some sel → sel ≠ "" → page.writeFileResult = none →
        (handleToolCall "stagehand_get_html" args page logs).1.isError = false ∧
        (handleToolCall "stagehand_get_html" args page logs).2.artifact
          = some (getHtmlInPage page.doc (some sel))) := by
  intro page args logs sel
  refine ⟨?_, ?_, ?_, ?_, ?_⟩
  · intro hx hnone
    have hb : (sel == "") = false := beq_eq_false_iff_ne.mpr (isXPathSelector_ne_empty hx)
    have hres : getHtmlInPage page.doc (some sel) = xpathNotFoundHtml sel page.doc := by
      simp [getHtmlInPage, hb, hx, hnone]
    rw [hres]
    constructor
    · unfold xpathNotFoundHtml
      exact containsStr_append_left _ (containsStr_append_left _ (by decide))
    · unfold xpathNotFoundHtml
      exact containsStr_append_left _ (containsStr_append_right _ (containsStr_self sel))
  · intro el hx hsome
    have hb : (sel == "") = false := beq_eq_false_iff_ne.mpr (isXPathSelector_ne_empty hx)
    simp [getHtmlInPage, hb, hx, hsome]
  · intro hne hnx hnone
    have hb : (sel == "") = false := beq_eq_false_iff_ne.mpr hne
    have hres : getHtmlInPage page.doc (some sel) = cssNotFoundHtml sel page.doc := by
      simp [getHtmlInPage, hb, hnx, hnone]
    rw [hres]
    refine ⟨?_, ?_, ?_, ?_⟩
    · unfold cssNotFoundHtml
      exact containsStr_append_left _ (containsStr_append_left _ (by decide))
    · unfold cssNotFoundHtml
      exact containsStr_append_left _ (containsStr_append_right _ (containsStr_self sel))
    · unfold similarElements
      exact List.length_take_le 5 _
    · intro el hmem
      unfold similarElements at hmem
      have h2 := List.mem_of_mem_take hmem
      exact eq_of_beq (List.mem_filter.mp h2).2
  · intro el hne hnx hsome
    have hb : (sel == "") = false := beq_eq_false_iff_ne.mpr hne
    simp [getHtmlInPage, hb, hnx, hsome]
  · intro hsel hne hw
    have hb : (sel == "") = false := beq_eq_false_iff_ne.mpr hne
    constructor <;> simp [handleToolCall, hsel, hb, hw]

/-- A page over the sample document on which `div` and `//div` match. -/
def foundPage : PageModel := { samplePage with doc := sampleFoundDoc }

/-- Claim C7 (witness): concrete applications — missing XPath and CSS
selectors produce the respective diagnostics (with the bounded similar
list), found selectors return the element's outer HTML, and the envelope
is a non-error whose artifact is the produced document. -/
theorem getHtml_selector_dispatch_witness :
    containsStr (getHtmlInPage samplePage.doc (some "//nope")) "XPath Element Not Found" = true ∧
    containsStr (getHtmlInPage samplePage.doc (some "//nope")) "//nope" = true ∧
    containsStr (getHtmlInPage samplePage.doc (some "div.missing")) "CSS Element Not Found" = true ∧
    containsStr (getHtmlInPage samplePage.doc (some "div.missing")) "div.missing" = true ∧
    (similarElements samplePage.doc "div.missing").length ≤ 5 ∧
    (∀ el ∈ similarElements samplePage.doc "div.missing",
      strToLower el.tagName = strToLower (leadingTagToken "div.missing")) ∧
    getHtmlInPage foundPage.doc (some "div") = sampleDiv.outerHTML ∧
    getHtmlInPage foundPage.doc (some "//div") = sampleDiv.outerHTML ∧
    (handleToolCall "stagehand_get_html" { selector := some "//nope" }
        samplePage []).1.isError = false ∧
    (handleToolCall "stagehand_get_html" { selector := some "//nope" }
        samplePage []).2.artifact
      = some (getHtmlInPage samplePage.doc (some "//nope")) := by
  have h1 := getHtml_selector_dispatch samplePage { selector := some "//nope" } [] "//nope"
  have h2 := getHtml_selector_dispatch samplePage {} [] "div.missing"
  have h3 := getHtml_selector_dispatch foundPage {} [] "div"
  have h4 := getHtml_selector_dispatch foundPage {} [] "//div"
  exact ⟨(h1.1 (by decide) rfl).1, (h1.1 (by decide) rfl).2,
         (h2.2.2.1 (by decide) (by decide) rfl).1,
         (h2.2.2.1 (by decide) (by decide) rfl).2.1,
         (h2.2.2.1 (by decide) (by decide) rfl).2.2.1,
         (h2.2.2.1 (by decide) (by decide) rfl).2.2.2,
         h3.2.2.2.1 sampleDiv (by decide) (by decide) rfl,
         h4.2.1 sampleDiv (by decide) rfl,
         (h1.2.2.2.2 rfl (by decide) rfl).1,
         (h1.2.2.2.2 rfl (by decide) rfl).2⟩

end StagehandMcp
